import Mathlib

/-!
Verification development for the webpify batch image converter.

The Rust sources are shallowly embedded: pure functions become Lean
functions, stateful code is explicit state passing over a statistics
record, filesystem and codec outcomes are oracle fields of a per-item
context, and the `f64` arithmetic on byte counts is modelled exactly
over `ℚ` (all concrete values used in theorems are exactly
representable in `f64`, so the idealisation is faithful there).
-/

namespace Webpify

/-! ## Data model (lib.rs, config.rs) -/

/-- Compression modes for WebP conversion (lib.rs `CompressionMode`). -/
inductive CompressionMode
  | lossless
  | lossy
  | auto
deriving DecidableEq, Repr

/-- How to handle input files after successful conversion
(lib.rs `ReplaceInputMode`). -/
inductive ReplaceInputMode
  | off
  | recycle
  | delete
deriving DecidableEq, Repr

/-! ## Statistics aggregator (stats.rs)

The Rust `ConversionStats` holds `AtomicU64` counters and mutex-guarded
collections.  Counter updates are commutative increments, so any
interleaving of the rayon workers is equivalent to a sequential fold;
we model the aggregate as a pure record threaded through the run. -/

/-- stats.rs `ConversionStats`: counters, byte totals and the error list
(an error record keeps the file path and the message). -/
structure ConversionStats where
  processed_count : Nat
  error_count : Nat
  skipped_count : Nat
  original_size : Nat
  compressed_size : Nat
  format_tallies : List String
  errors : List (String × String)
deriving DecidableEq, Repr

/-- stats.rs `ConversionStats::new`. -/
def ConversionStats.new : ConversionStats :=
  ⟨0, 0, 0, 0, 0, [], []⟩

/-- stats.rs `record_success`: bump the processed counter and both byte
totals. -/
def ConversionStats.record_success (s : ConversionStats)
    (original compressed : Nat) : ConversionStats :=
  { s with
    processed_count := s.processed_count + 1
    original_size := s.original_size + original
    compressed_size := s.compressed_size + compressed }

/-- stats.rs `record_error`: bump the error counter and append an error
record. -/
def ConversionStats.record_error (s : ConversionStats)
    (file_path error : String) : ConversionStats :=
  { s with
    error_count := s.error_count + 1
    errors := s.errors ++ [(file_path, error)] }

/-- stats.rs `record_skip`: bump the skipped counter. -/
def ConversionStats.record_skip (s : ConversionStats) : ConversionStats :=
  { s with skipped_count := s.skipped_count + 1 }

/-- stats.rs `record_format`: tally one source extension (the multiset
of recorded extensions is kept as a list). -/
def ConversionStats.record_format (s : ConversionStats)
    (format : String) : ConversionStats :=
  { s with format_tallies := s.format_tallies ++ [format] }

/-- stats.rs `get_compression_ratio`: `compressed / original` when the
original byte total is positive, else `0.0` (exact-rational model of the
`f64` division). -/
def ConversionStats.get_compression_ratio (s : ConversionStats) : ℚ :=
  if 0 < s.original_size then
    (s.compressed_size : ℚ) / (s.original_size : ℚ)
  else 0

/-- utils.rs `calculate_compression_ratio`: same formula at the level of
two plain sizes. -/
def calculate_compression_ratio (original_size compressed_size : Nat) : ℚ :=
  if original_size = 0 then 0
  else (compressed_size : ℚ) / (original_size : ℚ)

/-! ## Header validator (utils.rs)

A file is modelled by its byte list.  The Rust code reads at most 16
bytes into a zero-initialised buffer and rejects outright when fewer
than 4 bytes could be read; slice comparisons against that buffer are
expanded into pointwise comparisons of the padded bytes
(`headerByte bytes i` is buffer position `i`). -/

/-- Byte `i` of the zero-initialised 16-byte header buffer after
reading the file: the byte of the file when present, `0` otherwise. -/
def headerByte (bytes : List Nat) (i : Nat) : Nat :=
  bytes.getD i 0

/-- utils.rs `validate_image_header` (lines 79-121): magic-number check
dispatched on the claimed extension, after requiring that at least 4
bytes were read. -/
def validate_image_header (bytes : List Nat) (extension : String) : Bool :=
  let b := headerByte bytes
  if bytes.length < 4 then false
  else
    match extension with
    | "jpg" | "jpeg" =>
        b 0 == 0xFF && b 1 == 0xD8
    | "png" =>
        b 0 == 0x89 && b 1 == 0x50 && b 2 == 0x4E && b 3 == 0x47 &&
        b 4 == 0x0D && b 5 == 0x0A && b 6 == 0x1A && b 7 == 0x0A
    | "gif" =>
        (b 0 == 0x47 && b 1 == 0x49 && b 2 == 0x46 &&
         b 3 == 0x38 && b 4 == 0x37 && b 5 == 0x61) ||
        (b 0 == 0x47 && b 1 == 0x49 && b 2 == 0x46 &&
         b 3 == 0x38 && b 4 == 0x39 && b 5 == 0x61)
    | "bmp" =>
        b 0 == 0x42 && b 1 == 0x4D
    | "tiff" =>
        (b 0 == 0x49 && b 1 == 0x49 && b 2 == 0x2A && b 3 == 0x00) ||
        (b 0 == 0x4D && b 1 == 0x4D && b 2 == 0x00 && b 3 == 0x2A)
    | "webp" =>
        b 0 == 0x52 && b 1 == 0x49 && b 2 == 0x46 && b 3 == 0x46 &&
        b 8 == 0x57 && b 9 == 0x45 && b 10 == 0x42 && b 11 == 0x50
    | _ => true

/-- utils.rs `is_valid_image_file` (lines 61-76): extension whitelist,
then the deep header check.  `extension` is the lowercased extension of
the path, `none` when the path has no extension. -/
def is_valid_image_file (bytes : List Nat) (extension : Option String) : Bool :=
  match extension with
  | none => false
  | some ext =>
      if (["jpg", "jpeg", "png", "gif", "bmp", "tiff", "webp"].contains ext) then
        validate_image_header bytes ext
      else false

/-- The magic-signature requirement the specification describes: the
leading bytes of the file literally form the required format prefix
(JPEG 2 bytes, PNG 8, GIF 6, BMP 2, TIFF 4, WebP needs `RIFF` at
offset 0 and `WEBP` at offset 8); unknown extensions pass by default. -/
def magic_matches (bytes : List Nat) (extension : String) : Bool :=
  match extension with
  | "jpg" | "jpeg" =>
      bytes.take 2 == [0xFF, 0xD8]
  | "png" =>
      bytes.take 8 == [0x89, 0x50, 0x4E, 0x47, 0x0D, 0x0A, 0x1A, 0x0A]
  | "gif" =>
      bytes.take 6 == [0x47, 0x49, 0x46, 0x38, 0x37, 0x61] ||
      bytes.take 6 == [0x47, 0x49, 0x46, 0x38, 0x39, 0x61]
  | "bmp" =>
      bytes.take 2 == [0x42, 0x4D]
  | "tiff" =>
      bytes.take 4 == [0x49, 0x49, 0x2A, 0x00] ||
      bytes.take 4 == [0x4D, 0x4D, 0x00, 0x2A]
  | "webp" =>
      bytes.take 4 == [0x52, 0x49, 0x46, 0x46] &&
      (bytes.drop 8).take 4 == [0x57, 0x45, 0x42, 0x50]
  | _ => true

/-! ## Image converter and mode selector (converter.rs)

A decoded bitmap is its dimensions plus a pixel function returning
RGBA channel values (`get_pixel` of the `image` crate always yields four
channels, so the Rust guard `rgba.len() > 3` is always true).  Pixel
coordinates and channel values are `Nat`; the `u32` arithmetic of the
sampler is modelled without wraparound, exact for every bitmap within
the WebP 16383-per-axis bound. -/

/-- A decoded bitmap: dimensions and an RGBA pixel accessor. -/
structure Image where
  width : Nat
  height : Nat
  pixel : Nat → Nat → Nat × Nat × Nat × Nat

/-- Rust `(0..n).step_by(s)` for `s ≥ 1`: the multiples of `s`
below `n`. -/
def stepRange (n s : Nat) : List Nat :=
  (List.range ((n + s - 1) / s)).map (· * s)

/-- The grid of sample coordinates visited by
`analyze_color_complexity`: rows `0, stepY, …` (outer loop), columns
`0, stepX, …` (inner loop), with strides `max (dim / 10) 1`. -/
def samplePoints (width height : Nat) : List (Nat × Nat) :=
  let stepX := max (width / 10) 1
  let stepY := max (height / 10) 1
  (stepRange height stepY).flatMap fun y =>
    (stepRange width stepX).map fun x => (x, y)

/-- Loop state of `analyze_color_complexity`: the set of distinct RGB
triples seen and the transparency flag. -/
structure ColorScan where
  unique_colors : Finset (Nat × Nat × Nat)
  has_transparency : Bool

/-- One iteration of the sampling loop.  The Rust `break` leaves the
inner row once `unique_colors.len() > sample_size`, and the outer loop
then re-breaks at the first pixel of every later row; since the set
only grows, this is the same as skipping every remaining pixel, which
is how the fold models it. -/
def colorScanStep (img : Image) (sample_size : Nat) (st : ColorScan)
    (p : Nat × Nat) : ColorScan :=
  if sample_size < st.unique_colors.card then st
  else
    let rgba := img.pixel p.1 p.2
    { unique_colors := insert (rgba.1, rgba.2.1, rgba.2.2.1) st.unique_colors
      has_transparency := st.has_transparency || rgba.2.2.2 < 255 }

/-- The final loop state of `analyze_color_complexity` on a bitmap
(sample budget `min 100 (w·h/4)`, as in converter.rs line 176). -/
def sampledScan (img : Image) : ColorScan :=
  (samplePoints img.width img.height).foldl
    (colorScanStep img (min 100 (img.width * img.height / 4)))
    ⟨∅, false⟩

/-- converter.rs `analyze_color_complexity` (lines 173-208): sample the
grid, then decide lossless iff transparency was seen or fewer than 64
distinct RGB triples were collected. -/
def analyze_color_complexity (img : Image) : Bool :=
  let final := sampledScan img
  final.has_transparency || final.unique_colors.card < 64

/-- converter.rs `should_use_lossless_fast` (lines 134-170):
extension-first heuristic for Auto mode.  `extension` is the lowercased
source extension, `""` when the path has none (Rust
`unwrap_or_default`). -/
def should_use_lossless_fast (img : Image) (extension : String) : Bool :=
  match extension with
  | "png" | "gif" => true
  | "jpg" | "jpeg" =>
      let total_pixels := img.width * img.height
      if total_pixels < 50000 then true
      else analyze_color_complexity img
  | _ =>
      let total_pixels := img.width * img.height
      if total_pixels < 50000 then true
      else analyze_color_complexity img

/-- converter.rs `ImageConverter`: quality is a `u8` stored as `f32`
(integral values up to 255 are exact in `f32`, so `Nat` is a faithful
carrier). -/
structure ImageConverter where
  quality : Nat
  mode : CompressionMode
  ultra_fast : Bool
  dry_run : Bool

/-- converter.rs `new_with_dry_run` (lines 18-25): `ultra_fast` is
hard-wired to `true`. -/
def ImageConverter.new_with_dry_run (quality : Nat) (mode : CompressionMode)
    (dry_run : Bool) : ImageConverter :=
  ⟨quality, mode, true, dry_run⟩

/-- converter.rs `convert_lossy_fast` (lines 107-112): the quality
actually passed to the encoder — capped at 85 when the ultra-fast
profile is active. -/
def ImageConverter.effective_lossy_quality (c : ImageConverter) : Nat :=
  if c.ultra_fast && decide (85 < c.quality) then 85 else c.quality

/-- converter.rs line 33: the dry-run synthetic estimate
`(original_size as f64 * 0.6) as u64`, modelled in exact real
arithmetic as `⌊0.6 · n⌋`; the `f64` computation agrees with this for
every byte count below `2 ^ 50`. -/
def dry_run_estimate (original_size : Nat) : Nat :=
  3 * original_size / 5

/-- Filesystem mutations the embedded pipeline can perform. -/
inductive FsEffect
  | createDir
  | writeOutput
  | deleteInput
  | recycleInput
deriving DecidableEq, Repr

/-- Oracle for the filesystem and external-codec outcomes of one
`convert_to_webp` call: the true size of the source file and whether each
fallible external step succeeds. -/
structure ConvCtx where
  metadata_ok : Bool
  src_size : Nat
  decode_ok : Bool
  img : Image
  write_ok : Bool
  encoded_size : Nat
  output_metadata_ok : Bool

/-- Result of one `convert_to_webp` call: the returned
`(original, compressed)` pair or the error, the filesystem mutations
performed, and whether the codec (decode/encode) was invoked. -/
structure ConvOutcome where
  result : Except String (Nat × Nat)
  effects : List FsEffect
  codec_invoked : Bool

/-- converter.rs `convert_to_webp` (lines 27-57): read the source size,
then either the dry-run analysis path (decode only, synthetic estimate,
no write) or the real path (decode, zero-dimension guard, encode and
write, then stat the output).  Encoding-mode selection only influences
the written bytes, which the `encoded_size` oracle carries. -/
def ImageConverter.convert_to_webp (c : ImageConverter) (ctx : ConvCtx) :
    ConvOutcome :=
  if !ctx.metadata_ok then ⟨.error "Failed to read input metadata", [], false⟩
  else if c.dry_run then
    if !ctx.decode_ok then ⟨.error "Failed to read image", [], true⟩
    else ⟨.ok (ctx.src_size, dry_run_estimate ctx.src_size), [], true⟩
  else if !ctx.decode_ok then ⟨.error "Failed to read image", [], true⟩
  else if ctx.img.width == 0 || ctx.img.height == 0 then
    ⟨.error "Invalid image dimensions", [], true⟩
  else if !ctx.write_ok then ⟨.error "Failed to save WebP file", [], true⟩
  else if !ctx.output_metadata_ok then
    ⟨.error "Failed to read output metadata", [.writeOutput], true⟩
  else ⟨.ok (ctx.src_size, ctx.encoded_size), [.writeOutput], true⟩

/-! ## Library dispatcher (core.rs `WebpifyCore`)

Per-item processing is modelled by a pure step over the statistics
record.  The rayon workers only perform commutative counter increments
and list appends into the shared aggregate, so a sequential left fold
over the work list is a faithful linearisation of any interleaving. -/

/-- The options the dispatch path of core.rs consults
(config.rs `ConversionOptions`, restricted to the fields the per-item
code reads). -/
structure CoreOptions where
  quality : Nat
  mode : CompressionMode
  overwrite : Bool
  dry_run : Bool
  replace_input : ReplaceInputMode

/-- Oracle for one enumerated work item: its display path, lowercased
extension, whether output-path derivation succeeds, whether the derived
destination already exists, whether the parent directory of the destination
is missing and whether creating it succeeds, the conversion context,
and the outcome of the input-disposition action. -/
structure ItemCtx where
  path : String
  ext : Option String
  path_ok : Bool
  output_exists : Bool
  parent_missing : Bool
  parent_create_ok : Bool
  conv : ConvCtx
  disposition_ok : Bool
  disposition_error : String

/-- Result of one `process_single_file` call. -/
structure ProcessResult where
  result : Except String (Nat × Nat)
  stats : ConversionStats
  effects : List FsEffect
  codec_invoked : Bool

/-- core.rs `process_single_file` (lines 221-248): derive the output
path, record a skip and return `Ok((0, 0))` when the destination exists
without overwrite, otherwise create the parent directory, tally the
source format and invoke the converter. -/
def core_process_single_file (c : ImageConverter) (opts : CoreOptions)
    (ctx : ItemCtx) (st : ConversionStats) : ProcessResult :=
  if !ctx.path_ok then
    ⟨.error "Input path is not under input directory", st, [], false⟩
  else if ctx.output_exists && !opts.overwrite then
    ⟨.ok (0, 0), st.record_skip, [], false⟩
  else if !ctx.parent_create_ok then
    ⟨.error "Failed to create directory", st, [], false⟩
  else
    let dirEffects := if ctx.parent_missing then [FsEffect.createDir] else []
    let st2 := match ctx.ext with
      | some e => st.record_format e
      | none => st
    let o := c.convert_to_webp ctx.conv
    ⟨o.result, st2, dirEffects ++ o.effects, o.codec_invoked⟩

/-- core.rs `convert_images`, body of the `par_iter().for_each` closure
(lines 184-215): every `Ok` result — including the `Ok((0, 0))` skip
sentinel — is recorded as a success; input disposition runs unless
dry-run, and a disposition failure is only logged (`log::warn!`),
leaving the statistics untouched. -/
def core_handle_item (c : ImageConverter) (opts : CoreOptions)
    (ctx : ItemCtx) (st : ConversionStats) :
    ConversionStats × List FsEffect × Bool :=
  let r := core_process_single_file c opts ctx st
  match r.result with
  | .ok (original, compressed) =>
      let st2 := r.stats.record_success original compressed
      if !opts.dry_run then
        match opts.replace_input with
        | .off => (st2, r.effects, r.codec_invoked)
        | .recycle =>
            if ctx.disposition_ok then
              (st2, r.effects ++ [.recycleInput], r.codec_invoked)
            else (st2, r.effects, r.codec_invoked)
        | .delete =>
            if ctx.disposition_ok then
              (st2, r.effects ++ [.deleteInput], r.codec_invoked)
            else (st2, r.effects, r.codec_invoked)
      else (st2, r.effects, r.codec_invoked)
  | .error e => (r.stats.record_error ctx.path e, r.effects, r.codec_invoked)

/-- Sequentialised worker loop of core.rs `convert_images`: thread the
statistics through the work list, collecting filesystem effects. -/
def core_convert_images_go (c : ImageConverter) (opts : CoreOptions)
    (items : List ItemCtx) (st : ConversionStats) :
    ConversionStats × List FsEffect :=
  match items with
  | [] => (st, [])
  | ctx :: rest =>
      let step := core_handle_item c opts ctx st
      let r := core_convert_images_go c opts rest step.1
      (r.1, step.2.1 ++ r.2)

/-- core.rs `convert_images` (lines 171-218) over the enumerated work
list: builds the converter (line 177), then runs the worker loop. -/
def core_convert_images (opts : CoreOptions) (items : List ItemCtx)
    (st : ConversionStats) : ConversionStats × List FsEffect :=
  core_convert_images_go
    (ImageConverter.new_with_dry_run opts.quality opts.mode opts.dry_run)
    opts items st

/-- Run-level oracle: whether the output root is missing and whether
creating it succeeds. -/
structure RunCtx where
  output_dir_missing : Bool
  output_dir_create_ok : Bool

/-- core.rs `run_with_progress` (lines 35-108), reduced to its
statistics and filesystem behaviour: the output root is created
unconditionally — before the dry-run flag is ever consulted — then the
work list is processed.  (The empty-list early return produces the same
zero statistics and no per-item effects, so it needs no separate
branch.) -/
def core_run (opts : CoreOptions) (rctx : RunCtx) (items : List ItemCtx) :
    Except String (ConversionStats × List FsEffect) :=
  if !rctx.output_dir_create_ok then .error "Failed to create output directory"
  else
    let effects0 := if rctx.output_dir_missing then [FsEffect.createDir] else []
    let r := core_convert_images opts items ConversionStats.new
    .ok (r.1, effects0 ++ r.2)

/-! ## CLI dispatcher (main.rs) -/

/-- The options the dispatch path of main.rs consults. -/
structure CliOptions where
  quality : Nat
  mode : CompressionMode
  overwrite : Bool
  dry_run : Bool
  replace_input : ReplaceInputMode
  reencode_webp : Bool

/-- main.rs `process_single_image` (lines 914-951): stat the input,
derive the output path, then fail with an error — not a skip — when the
destination exists without overwrite outside dry-run; invoke the
converter and recompute the compressed size (synthetic 0.6 estimate in
dry-run, output stat otherwise).  Parent directories are pre-created in
bulk before dispatch, not here. -/
def cli_process_single_image (c : ImageConverter) (opts : CliOptions)
    (ctx : ItemCtx) : Except String (Nat × Nat) × List FsEffect × Bool :=
  if !ctx.conv.metadata_ok then (.error "Failed to read input metadata", [], false)
  else if !ctx.path_ok then (.error "Invalid filename", [], false)
  else if !opts.dry_run && (ctx.output_exists && !opts.overwrite) then
    (.error "File exists and overwrite mode is disabled", [], false)
  else
    let o := c.convert_to_webp ctx.conv
    match o.result with
    | .error e => (.error e, o.effects, o.codec_invoked)
    | .ok _ =>
        let original := ctx.conv.src_size
        if opts.dry_run then
          (.ok (original, dry_run_estimate original), o.effects, o.codec_invoked)
        else if !ctx.conv.output_metadata_ok then
          (.error "Failed to read output metadata", o.effects, o.codec_invoked)
        else (.ok (original, ctx.conv.encoded_size), o.effects, o.codec_invoked)

/-- main.rs `convert_images`, body of the worker closure
(lines 794-875): WebP sources are pre-skipped unless re-encoding is
enabled; a disposition failure is recorded into the error list with a
`[replace_input:…]` prefix; note the disposition match is **not**
guarded by the dry-run flag here. -/
def cli_handle_item (c : ImageConverter) (opts : CliOptions)
    (ctx : ItemCtx) (st : ConversionStats) :
    ConversionStats × List FsEffect :=
  if ctx.ext == some "webp" && !opts.reencode_webp then (st.record_skip, [])
  else
    let r := cli_process_single_image c opts ctx
    match r.1 with
    | .ok (original, compressed) =>
        let st2 := st.record_success original compressed
        match opts.replace_input with
        | .off => (st2, r.2.1)
        | .recycle =>
            if ctx.disposition_ok then (st2, r.2.1 ++ [.recycleInput])
            else
              (st2.record_error ctx.path
                 ("[replace_input:recycle] " ++ ctx.disposition_error), r.2.1)
        | .delete =>
            if ctx.disposition_ok then (st2, r.2.1 ++ [.deleteInput])
            else
              (st2.record_error ctx.path
                 ("[replace_input:delete] " ++ ctx.disposition_error), r.2.1)
    | .error e => (st.record_error ctx.path e, r.2.1)

/-- Build the CLI option record the way main.rs derives it from the
same run configuration as the library core. -/
def cliOfCore (o : CoreOptions) (reencode_webp : Bool) : CliOptions :=
  ⟨o.quality, o.mode, o.overwrite, o.dry_run, o.replace_input, reencode_webp⟩

/-! ## Concrete contexts used by witnesses and counterexamples -/

/-- A 10×10 opaque single-colour bitmap. -/
def witnessImage : Image :=
  ⟨10, 10, fun _ _ => (0, 0, 0, 255)⟩

/-- A fully successful conversion context: 1000 source bytes,
400 encoded bytes, every external step succeeds. -/
def okConv : ConvCtx :=
  ⟨true, 1000, true, witnessImage, true, 400, true⟩

/-- A work item whose derived destination already exists. -/
def skipItem : ItemCtx :=
  ⟨"a.jpg", some "jpg", true, true, false, true, okConv, true, "os error"⟩

/-- A work item with a fresh destination whose parent directory is
missing. -/
def freshItem : ItemCtx :=
  ⟨"a.jpg", some "jpg", true, false, true, true, okConv, true, "os error"⟩

/-- A work item that converts successfully but whose input-disposition
action fails. -/
def dispFailItem : ItemCtx :=
  ⟨"b.jpg", some "jpg", true, false, false, true, okConv, false,
    "permission denied"⟩

/-- Default-like options: overwrite off, no dry run, keep inputs. -/
def baseOpts : CoreOptions :=
  ⟨80, CompressionMode.lossless, false, false, ReplaceInputMode.off⟩

/-- Same options with the dry-run flag set. -/
def dryOpts : CoreOptions :=
  ⟨80, CompressionMode.lossless, false, true, ReplaceInputMode.off⟩

/-- Same options with the permanent-delete disposition policy. -/
def deleteOpts : CoreOptions :=
  ⟨80, CompressionMode.lossless, false, false, ReplaceInputMode.delete⟩

/-- Same options with the move-to-recycle-bin disposition policy. -/
def recycleOpts : CoreOptions :=
  ⟨80, CompressionMode.lossless, false, false, ReplaceInputMode.recycle⟩

/-! ## Theorems -/

/-- Claim C2, counterexample: with 1000 original bytes and 250
compressed bytes the aggregator reports `250/1000 = 1/4`, not the
`1 − 250/1000 = 3/4` the claim asserts (both values are exactly
representable, so the `f64` code computes the same numbers). -/
theorem C2_counterexample :
    (ConversionStats.mk 0 0 0 1000 250 [] []).get_compression_ratio = 1 / 4
    ∧ (1 : ℚ) - 250 / 1000 = 3 / 4
    ∧ (1 / 4 : ℚ) ≠ 3 / 4 := by
  refine ⟨?_, by norm_num, by norm_num⟩
  simp [ConversionStats.get_compression_ratio]
  norm_num

/-- Claim C2, amended: the reported compression ratio equals
`total_compressed / total_original` (the same formula as
utils.rs `calculate_compression_ratio`) when `total_original > 0`,
equals exactly `0` when `total_original = 0`, and lies in `[0, 1]`
whenever `compressed ≤ original`. -/
theorem C2_amended (s : ConversionStats) :
    s.get_compression_ratio
        = calculate_compression_ratio s.original_size s.compressed_size
    ∧ (s.original_size = 0 → s.get_compression_ratio = 0)
    ∧ (0 < s.original_size →
        s.get_compression_ratio
          = (s.compressed_size : ℚ) / (s.original_size : ℚ))
    ∧ (s.compressed_size ≤ s.original_size →
        0 ≤ s.get_compression_ratio ∧ s.get_compression_ratio ≤ 1) := by
  by_cases h : 0 < s.original_size
  · have h0 : s.original_size ≠ 0 := by omega
    refine ⟨?_, fun h1 => absurd h1 h0, fun _ => ?_, fun hc => ⟨?_, ?_⟩⟩
    · simp [ConversionStats.get_compression_ratio,
        calculate_compression_ratio, h, h0]
    · simp [ConversionStats.get_compression_ratio, h]
    · simp only [ConversionStats.get_compression_ratio, if_pos h]
      positivity
    · simp only [ConversionStats.get_compression_ratio, if_pos h]
      rw [div_le_one (by exact_mod_cast h)]
      exact_mod_cast hc
  · have h0 : s.original_size = 0 := by omega
    refine ⟨?_, fun _ => ?_, fun h1 => absurd h1 h, fun _ => ?_⟩ <;>
      simp [ConversionStats.get_compression_ratio,
        calculate_compression_ratio, h, h0]

/-- Claim C2, witness: the amended bounds applied at 1000 original and
250 compressed bytes. -/
theorem C2_amended_witness :
    0 ≤ (ConversionStats.mk 0 0 0 1000 250 [] []).get_compression_ratio
    ∧ (ConversionStats.mk 0 0 0 1000 250 [] []).get_compression_ratio ≤ 1 :=
  (C2_amended (ConversionStats.mk 0 0 0 1000 250 [] [])).2.2.2 (by norm_num)

/-- Claim C8: in dry-run mode, for every readable source (metadata and
decode succeed), `convert_to_webp` returns the true source size paired
with the synthetic estimate `⌊0.6 · original⌋` — a function of the
original size alone — and performs no filesystem mutation. -/
theorem C8_dry_run_contract (c : ImageConverter) (ctx : ConvCtx)
    (hdry : c.dry_run = true) (hmeta : ctx.metadata_ok = true)
    (hdec : ctx.decode_ok = true) :
    c.convert_to_webp ctx
      = ⟨.ok (ctx.src_size, dry_run_estimate ctx.src_size), [], true⟩ := by
  simp [ImageConverter.convert_to_webp, hdry, hmeta, hdec]

/-- Claim C8, witness: a dry-run conversion of a readable 1000-byte
source yields `(1000, 600)` and no effects. -/
theorem C8_dry_run_contract_witness :
    (ImageConverter.new_with_dry_run 80 CompressionMode.auto true).convert_to_webp
        okConv
      = ⟨.ok (1000, 600), [], true⟩ := by
  have h := C8_dry_run_contract
    (ImageConverter.new_with_dry_run 80 CompressionMode.auto true) okConv
    rfl rfl rfl
  simpa [okConv, dry_run_estimate] using h

/-- Claim C9: with the ultra-fast profile active, the quality handed to
the lossy encoder is the configured quality capped at 85 — exactly 85
when configured above 85, unchanged otherwise. -/
theorem C9_fast_profile_quality_cap (c : ImageConverter)
    (hfast : c.ultra_fast = true) :
    (85 < c.quality → c.effective_lossy_quality = 85)
    ∧ (c.quality ≤ 85 → c.effective_lossy_quality = c.quality) := by
  constructor
  · intro hq
    simp [ImageConverter.effective_lossy_quality, hfast, hq]
  · intro hq
    simp [ImageConverter.effective_lossy_quality, hfast, Nat.not_lt.mpr hq]

/-- Claim C9, witness: converters built by `new_with_dry_run` (which
hard-wires the ultra-fast profile) encode quality 95 at 85 and quality
70 unchanged. -/
theorem C9_fast_profile_quality_cap_witness :
    (ImageConverter.new_with_dry_run 95 CompressionMode.lossy false).effective_lossy_quality
        = 85
    ∧ (ImageConverter.new_with_dry_run 70 CompressionMode.lossy false).effective_lossy_quality
        = 70 :=
  ⟨(C9_fast_profile_quality_cap
      (ImageConverter.new_with_dry_run 95 CompressionMode.lossy false) rfl).1
      (by decide),
   (C9_fast_profile_quality_cap
      (ImageConverter.new_with_dry_run 70 CompressionMode.lossy false) rfl).2
      (by decide)⟩

/-- Claim C1: a one-item run whose destination pre-exists (overwrite
disabled) ends with `processed = 1`, `failed = 0`, `skipped = 1` — the
skip sentinel `Ok((0, 0))` of `process_single_file` is also recorded as
a success by `convert_images`, so the three counters sum to 2 for one
enumerated file, violating both the final accounting equation and the
running `≤ total` invariant of the claim. -/
theorem C1_skip_double_count :
    (core_convert_images baseOpts [skipItem] ConversionStats.new).1
        = ⟨1, 0, 1, 0, 0, [], []⟩
    ∧ (1 + 0 + 1 : Nat) ≠ [skipItem].length := by
  exact ⟨rfl, by decide⟩

/-- Claim C3: for a work item whose destination pre-exists with
overwrite disabled, the library dispatcher records the skip and never
invokes the codec, but also counts the item as processed
(`processed = 1`, not the claimed 0); the CLI dispatcher records an
error instead of a skip. -/
theorem C3_preexisting_destination_eval :
    core_handle_item (ImageConverter.new_with_dry_run 80 CompressionMode.lossless false)
        baseOpts skipItem ConversionStats.new
      = (⟨1, 0, 1, 0, 0, [], []⟩, [], false)
    ∧ cli_handle_item (ImageConverter.new_with_dry_run 80 CompressionMode.lossless false)
        (cliOfCore baseOpts false) skipItem ConversionStats.new
      = (⟨0, 1, 0, 0, 0, [],
          [("a.jpg", "File exists and overwrite mode is disabled")]⟩, []) := by
  exact ⟨rfl, rfl⟩

/-- In dry-run mode a single item contributes at most a directory
creation: the dry path of the converter writes nothing and disposition is
gated on `!dry_run`, so the only possible effect is the parent
`create_dir_all`. -/
lemma core_handle_item_dry_effects (c : ImageConverter) (opts : CoreOptions)
    (ctx : ItemCtx) (st : ConversionStats) (hdry : opts.dry_run = true)
    (hc : c.dry_run = true) :
    ∀ e ∈ (core_handle_item c opts ctx st).2.1, e = FsEffect.createDir := by
  have hcase :
      (core_handle_item c opts ctx st).2.1 = []
      ∨ (core_handle_item c opts ctx st).2.1 = [FsEffect.createDir] := by
    unfold core_handle_item core_process_single_file
      ImageConverter.convert_to_webp
    by_cases h1 : ctx.path_ok <;>
    by_cases h2 : ctx.output_exists <;>
    by_cases h2b : opts.overwrite <;>
    by_cases h3 : ctx.parent_create_ok <;>
    by_cases h4 : ctx.parent_missing <;>
    by_cases h5 : ctx.conv.metadata_ok <;>
    by_cases h6 : ctx.conv.decode_ok <;>
    simp_all
  rcases hcase with h | h <;> rw [h] <;> intro e he <;> simp_all

/-- The worker loop in dry-run mode only ever creates directories. -/
lemma core_convert_images_go_dry_effects (c : ImageConverter)
    (opts : CoreOptions) (items : List ItemCtx) (st : ConversionStats)
    (hdry : opts.dry_run = true) (hc : c.dry_run = true) :
    ∀ e ∈ (core_convert_images_go c opts items st).2,
      e = FsEffect.createDir := by
  induction items generalizing st with
  | nil =>
      intro e he
      simp [core_convert_images_go] at he
  | cons ctx rest ih =>
      intro e he
      simp only [core_convert_images_go, List.mem_append] at he
      rcases he with h | h
      · exact core_handle_item_dry_effects c opts ctx st hdry hc e h
      · exact ih _ e h

/-- Claim C4, amended: a dry run writes no output file and neither
deletes nor recycles any input — every filesystem effect of a complete
library run is a directory creation (the output root on line 57 and
per-item destination parents on lines 236-239 are still created even in
dry-run). -/
theorem C4_amended (opts : CoreOptions) (rctx : RunCtx)
    (items : List ItemCtx) (hdry : opts.dry_run = true) :
    ∀ st effs, core_run opts rctx items = .ok (st, effs) →
      effs.all (· == FsEffect.createDir) = true := by
  intro st effs hrun
  rw [List.all_eq_true]
  intro e he
  rw [beq_iff_eq]
  unfold core_run at hrun
  by_cases hco : rctx.output_dir_create_ok
  · simp only [hco, Bool.not_true, Bool.false_eq_true, if_false,
      Except.ok.injEq, Prod.mk.injEq] at hrun
    obtain ⟨-, heq⟩ := hrun
    subst heq
    rcases List.mem_append.mp he with h | h
    · by_cases hm : rctx.output_dir_missing <;> simp_all
    · have hc : (ImageConverter.new_with_dry_run opts.quality opts.mode
          opts.dry_run).dry_run = true := hdry
      exact core_convert_images_go_dry_effects _ opts items
        ConversionStats.new hdry hc e h
  · simp [hco] at hrun

/-- Claim C4, counterexample: with the dry-run flag set, a run over one
fresh work item still performs two directory creations (the output root
and the parent directory of the item) — the filesystem is mutated. -/
theorem C4_counterexample :
    dryOpts.dry_run = true
    ∧ core_run dryOpts ⟨true, true⟩ [freshItem]
        = .ok (⟨1, 0, 0, 1000, 600, ["jpg"], []⟩,
            [FsEffect.createDir, FsEffect.createDir]) := by
  exact ⟨rfl, rfl⟩

/-- Claim C4, witness: the amended theorem applied to the concrete
dry run above. -/
theorem C4_amended_witness :
    [FsEffect.createDir, FsEffect.createDir].all
        (· == FsEffect.createDir) = true :=
  C4_amended dryOpts ⟨true, true⟩ [freshItem] rfl
    ⟨1, 0, 0, 1000, 600, ["jpg"], []⟩
    [FsEffect.createDir, FsEffect.createDir] rfl

/-- Claim C5, counterexample: a successful conversion whose delete
disposition fails leaves the error list of the library run empty — the
failure is only logged (`log::warn!` in core.rs lines 193-196), no
entry with a disposition prefix is appended, though the conversion
stays processed. -/
theorem C5_counterexample :
    (core_handle_item
        (ImageConverter.new_with_dry_run 80 CompressionMode.lossless false)
        deleteOpts dispFailItem ConversionStats.new).1
      = ⟨1, 0, 0, 1000, 400, ["jpg"], []⟩ := by
  rfl

/-- Claim C5, amended: when a conversion succeeds and the recycle or
delete disposition then fails, both dispatchers still count the item as
processed; the CLI dispatcher appends exactly one error entry carrying
the distinguishing `[replace_input:recycle]` or `[replace_input:delete]`
prefix of that mode, while the library dispatcher appends nothing to the
error list (the failure is only logged). -/
theorem C5_amended (c : ImageConverter) (copts : CoreOptions)
    (lopts : CliOptions) (ctx : ItemCtx) (st : ConversionStats)
    (pre : String)
    (hc : c.dry_run = false)
    (hcd : copts.dry_run = false)
    (hld : lopts.dry_run = false)
    (hmode : (copts.replace_input = ReplaceInputMode.recycle
                ∧ lopts.replace_input = ReplaceInputMode.recycle
                ∧ pre = "[replace_input:recycle] ")
             ∨ (copts.replace_input = ReplaceInputMode.delete
                ∧ lopts.replace_input = ReplaceInputMode.delete
                ∧ pre = "[replace_input:delete] "))
    (hdisp : ctx.disposition_ok = false)
    (hpath : ctx.path_ok = true)
    (hex : ctx.output_exists = false)
    (hpar : ctx.parent_create_ok = true)
    (hwebp : ctx.ext ≠ some "webp")
    (hm : ctx.conv.metadata_ok = true)
    (hd : ctx.conv.decode_ok = true)
    (hw : ctx.conv.write_ok = true)
    (hom : ctx.conv.output_metadata_ok = true)
    (hW : ctx.conv.img.width ≠ 0)
    (hH : ctx.conv.img.height ≠ 0) :
    (core_handle_item c copts ctx st).1.processed_count
        = st.processed_count + 1
    ∧ (core_handle_item c copts ctx st).1.error_count = st.error_count
    ∧ (core_handle_item c copts ctx st).1.errors = st.errors
    ∧ (cli_handle_item c lopts ctx st).1.processed_count
        = st.processed_count + 1
    ∧ (cli_handle_item c lopts ctx st).1.error_count = st.error_count + 1
    ∧ (cli_handle_item c lopts ctx st).1.errors
        = st.errors ++ [(ctx.path, pre ++ ctx.disposition_error)] := by
  rcases hmode with ⟨hcr, hlr, hpre⟩ | ⟨hcr, hlr, hpre⟩ <;>
  subst hpre <;>
  unfold core_handle_item cli_handle_item core_process_single_file
    cli_process_single_image ImageConverter.convert_to_webp <;>
  cases hext : ctx.ext <;>
  simp_all [ConversionStats.record_success, ConversionStats.record_error,
    ConversionStats.record_format]

/-- Claim C5, witness: the amended behaviour at a concrete item whose
disposition fails with a permission error, once under the delete policy
and once under the recycle policy. -/
theorem C5_amended_witness :
    (core_handle_item
        (ImageConverter.new_with_dry_run 80 CompressionMode.lossless false)
        deleteOpts dispFailItem ConversionStats.new).1.processed_count = 0 + 1
    ∧ (core_handle_item
        (ImageConverter.new_with_dry_run 80 CompressionMode.lossless false)
        deleteOpts dispFailItem ConversionStats.new).1.errors = []
    ∧ (cli_handle_item
        (ImageConverter.new_with_dry_run 80 CompressionMode.lossless false)
        (cliOfCore deleteOpts false) dispFailItem ConversionStats.new).1.errors
        = [] ++ [("b.jpg", "[replace_input:delete] " ++ "permission denied")]
    ∧ (core_handle_item
        (ImageConverter.new_with_dry_run 80 CompressionMode.lossless false)
        recycleOpts dispFailItem ConversionStats.new).1.errors = []
    ∧ (cli_handle_item
        (ImageConverter.new_with_dry_run 80 CompressionMode.lossless false)
        (cliOfCore recycleOpts false) dispFailItem ConversionStats.new).1.errors
        = [] ++ [("b.jpg", "[replace_input:recycle] " ++ "permission denied")] := by
  have hdel := C5_amended
    (ImageConverter.new_with_dry_run 80 CompressionMode.lossless false)
    deleteOpts (cliOfCore deleteOpts false) dispFailItem ConversionStats.new
    ("[replace_input:delete] ")
    rfl rfl rfl (Or.inr ⟨rfl, rfl, rfl⟩) rfl rfl rfl rfl (by decide)
    rfl rfl rfl rfl (by decide) (by decide)
  have hrec := C5_amended
    (ImageConverter.new_with_dry_run 80 CompressionMode.lossless false)
    recycleOpts (cliOfCore recycleOpts false) dispFailItem ConversionStats.new
    ("[replace_input:recycle] ")
    rfl rfl rfl (Or.inl ⟨rfl, rfl, rfl⟩) rfl rfl rfl rfl (by decide)
    rfl rfl rfl rfl (by decide) (by decide)
  exact ⟨hdel.1, hdel.2.2.1, hdel.2.2.2.2.2, hrec.2.2.1, hrec.2.2.2.2.2⟩

/-- Claim C10, counterexample: on a work item whose destination
pre-exists with overwrite disabled, the two dispatchers produce
different statistics — the library records a skip (and a spurious
success), the CLI records an error — so they are not behaviourally
equivalent per work item. -/
theorem C10_counterexample :
    (core_handle_item
        (ImageConverter.new_with_dry_run 80 CompressionMode.lossless false)
        baseOpts skipItem ConversionStats.new).1
      ≠ (cli_handle_item
          (ImageConverter.new_with_dry_run 80 CompressionMode.lossless false)
          (cliOfCore baseOpts false) skipItem ConversionStats.new).1 := by
  decide

/-- A non-dry conversion only returns `Ok` when the input and output
stats succeed, and its payload is always the pair of source size and
encoded size. -/
lemma convert_to_webp_ok_elim (c : ImageConverter) (ctx : ConvCtx)
    (hc : c.dry_run = false) (p : Nat × Nat)
    (h : (c.convert_to_webp ctx).result = .ok p) :
    ctx.metadata_ok = true ∧ ctx.output_metadata_ok = true
    ∧ p = (ctx.src_size, ctx.encoded_size) := by
  unfold ImageConverter.convert_to_webp at h
  by_cases h1 : ctx.metadata_ok <;> by_cases h2 : ctx.decode_ok <;>
  by_cases h3 : ctx.img.width = 0 <;> by_cases h4 : ctx.img.height = 0 <;>
  by_cases h5 : ctx.write_ok <;> by_cases h6 : ctx.output_metadata_ok <;>
  simp_all

set_option maxHeartbeats 1000000 in
/-- Claim C10, amended: outside the divergent cases — destination
pre-existing without overwrite, dry-run, WebP sources without the
re-encode flag, failing parent-directory creation, and failing
disposition — the library and CLI dispatchers classify every work item
identically and apply the same counter and byte-total updates (the
library additionally records a per-format tally, which the CLI never
does). -/
theorem C10_amended (o : CoreOptions) (reenc : Bool) (ctx : ItemCtx)
    (st : ConversionStats)
    (hdry : o.dry_run = false)
    (hskip : ctx.output_exists = false ∨ o.overwrite = true)
    (hwebp : ¬(ctx.ext = some "webp" ∧ reenc = false))
    (hparent : ctx.parent_create_ok = true)
    (hdisp : o.replace_input = ReplaceInputMode.off
        ∨ ctx.disposition_ok = true) :
    (core_handle_item
        (ImageConverter.new_with_dry_run o.quality o.mode o.dry_run)
        o ctx st).1.processed_count
      = (cli_handle_item
          (ImageConverter.new_with_dry_run o.quality o.mode o.dry_run)
          (cliOfCore o reenc) ctx st).1.processed_count
    ∧ (core_handle_item
        (ImageConverter.new_with_dry_run o.quality o.mode o.dry_run)
        o ctx st).1.error_count
      = (cli_handle_item
          (ImageConverter.new_with_dry_run o.quality o.mode o.dry_run)
          (cliOfCore o reenc) ctx st).1.error_count
    ∧ (core_handle_item
        (ImageConverter.new_with_dry_run o.quality o.mode o.dry_run)
        o ctx st).1.skipped_count
      = (cli_handle_item
          (ImageConverter.new_with_dry_run o.quality o.mode o.dry_run)
          (cliOfCore o reenc) ctx st).1.skipped_count
    ∧ (core_handle_item
        (ImageConverter.new_with_dry_run o.quality o.mode o.dry_run)
        o ctx st).1.original_size
      = (cli_handle_item
          (ImageConverter.new_with_dry_run o.quality o.mode o.dry_run)
          (cliOfCore o reenc) ctx st).1.original_size
    ∧ (core_handle_item
        (ImageConverter.new_with_dry_run o.quality o.mode o.dry_run)
        o ctx st).1.compressed_size
      = (cli_handle_item
          (ImageConverter.new_with_dry_run o.quality o.mode o.dry_run)
          (cliOfCore o reenc) ctx st).1.compressed_size := by
  have hc : (ImageConverter.new_with_dry_run o.quality o.mode
      o.dry_run).dry_run = false := hdry
  have hpre : (ctx.ext == some "webp"
      && !(cliOfCore o reenc).reencode_webp) = false := by
    cases hre : reenc <;> simp_all [cliOfCore]
  unfold core_handle_item cli_handle_item core_process_single_file
    cli_process_single_image
  by_cases h1 : ctx.path_ok
  · rcases hro : ((ImageConverter.new_with_dry_run o.quality o.mode
        o.dry_run).convert_to_webp ctx.conv).result with e | p
    · rcases hskip with hsk | hsk <;>
      by_cases h3 : ctx.conv.metadata_ok <;>
      by_cases hval : ctx.ext = some "webp" <;>
      cases hext : ctx.ext <;>
      simp_all [cliOfCore, ConversionStats.record_success,
        ConversionStats.record_error, ConversionStats.record_skip,
        ConversionStats.record_format]
    · obtain ⟨hm, hom, hp⟩ := convert_to_webp_ok_elim _ _ hc p hro
      subst hp
      rcases hskip with hsk | hsk <;>
      by_cases hval : ctx.ext = some "webp" <;>
      cases hext : ctx.ext <;>
      rcases hdisp with h9 | h9 <;>
      cases hrep : o.replace_input <;>
      simp_all [cliOfCore, ConversionStats.record_success,
        ConversionStats.record_error, ConversionStats.record_skip,
        ConversionStats.record_format]
  · by_cases h3 : ctx.conv.metadata_ok <;>
    by_cases hval : ctx.ext = some "webp" <;>
    simp_all [cliOfCore, ConversionStats.record_success,
      ConversionStats.record_error, ConversionStats.record_skip,
      ConversionStats.record_format]

/-- Claim C10, witness: both dispatchers agree on a successful fresh
work item under default options. -/
theorem C10_amended_witness :
    (core_handle_item
        (ImageConverter.new_with_dry_run baseOpts.quality baseOpts.mode
          baseOpts.dry_run)
        baseOpts freshItem ConversionStats.new).1.processed_count
      = (cli_handle_item
          (ImageConverter.new_with_dry_run baseOpts.quality baseOpts.mode
            baseOpts.dry_run)
          (cliOfCore baseOpts false) freshItem ConversionStats.new).1.processed_count := by
  have h := C10_amended baseOpts false freshItem ConversionStats.new
    rfl (by decide) (by decide) rfl (Or.inl rfl)
  exact h.1

/-- Claim C6: in Auto mode the selector chooses Lossless for every PNG
or GIF source unconditionally; for JPEG and all other extensions it
chooses Lossless whenever `width · height < 50000`, and otherwise
exactly when the sampled grid saw a pixel with alpha below 255 or
collected fewer than 64 distinct RGB triples. -/
theorem C6_auto_mode_selector (img : Image) (ext : String) :
    should_use_lossless_fast img ext =
      if ext = "png" ∨ ext = "gif" then true
      else if img.width * img.height < 50000 then true
      else ((sampledScan img).has_transparency
            || (sampledScan img).unique_colors.card < 64) := by
  unfold should_use_lossless_fast
  split <;> simp_all [analyze_color_complexity]

/-- Claim C7, counterexample: a 2-byte file consisting exactly of the
JPEG magic `FF D8` is rejected (the validator requires at least 4
readable bytes before any per-format check), although its leading bytes
match the signature the claim says suffices; likewise a short file with
an unknown extension is rejected rather than accepted by default. -/
theorem C7_counterexample :
    validate_image_header [0xFF, 0xD8] "jpg" = false
    ∧ magic_matches [0xFF, 0xD8] "jpg" = true
    ∧ validate_image_header [0, 0, 0] "xyz" = false
    ∧ magic_matches [0, 0, 0] "xyz" = true := by
  exact ⟨rfl, rfl, rfl, rfl⟩

/-- Claim C7, amended: the header validator accepts a file exactly when
at least 4 bytes could be read **and** the leading bytes of the file match
the magic signature required for its claimed extension (unknown
extensions are accepted whenever the 4-byte floor is met). -/
theorem C7_amended (bytes : List Nat) (ext : String) :
    validate_image_header bytes ext
      = (decide (4 ≤ bytes.length) && magic_matches bytes ext) := by
  by_cases hlen : bytes.length < 4
  · have h4 : ¬ 4 ≤ bytes.length := by omega
    simp [validate_image_header, hlen, h4]
  · have h4 : 4 ≤ bytes.length := by omega
    rcases bytes with _ | ⟨b0, _ | ⟨b1, _ | ⟨b2, _ | ⟨b3, rest⟩⟩⟩⟩
    · simp at h4
    · simp at h4
    · simp at h4
    · simp at h4
    · unfold validate_image_header magic_matches
      simp only [if_neg hlen, h4, decide_True, Bool.true_and]
      split <;> (try simp_all [headerByte])
      · rcases rest with _ | ⟨y0, _ | ⟨y1, _ | ⟨y2, _ | ⟨y3, t⟩⟩⟩⟩ <;>
          rw [Bool.eq_iff_iff] <;>
          simp [Bool.and_eq_true, beq_iff_eq] <;> omega
      · rcases rest with _ | ⟨y0, _ | ⟨y1, t⟩⟩ <;>
          rw [Bool.eq_iff_iff] <;>
          simp [Bool.and_eq_true, Bool.or_eq_true, beq_iff_eq] <;> omega
      · rw [Bool.eq_iff_iff]
        simp [Bool.and_eq_true, Bool.or_eq_true, beq_iff_eq]
        omega
      · rcases rest with _ | ⟨y0, _ | ⟨y1, _ | ⟨y2, _ | ⟨y3, _ | ⟨y4,
            _ | ⟨y5, _ | ⟨y6, _ | ⟨y7, t⟩⟩⟩⟩⟩⟩⟩⟩ <;>
          rw [Bool.eq_iff_iff] <;>
          simp [Bool.and_eq_true, beq_iff_eq] <;> omega

end Webpify
